import Mathlib

/-
Verification development for the counters-test telemetry bootstrap.

The source consists of two JavaScript files: a logger module and a main
module that (1) builds a static resource-attribute object, (2) runs an
asynchronous `initMetrics` sequence (Kubernetes check, GCP environment
detection, Cloud Functions workaround, resource merge, exporter /
provider construction, counter creation), (3) starts a background timer
on success or logs the error and exits the process on failure, and
(4) registers an HTTP request handler at module load.

JavaScript objects holding string attributes are embedded as association
lists with JS property-assignment semantics (`setAttr`), and the OTel
`Resource.merge` call (library code, following the object-spread /
updating-resource-wins semantics described in the design document) is
embedded as `mergeAttrs`.  The asynchronous control flow of the main
module is embedded as an event trace split at the first suspension
point, so that the module-level statements (handler registration, the
`then` / `catch` continuations) can be placed faithfully.
-/

namespace CountersSpec

/-- A JavaScript object of string-valued resource attributes, embedded as
an association list of key/value pairs. -/
abbrev AttrMap := List (String × String)

/-- Property read `obj[key]`: first binding for the key, if any.  Objects
built by `setAttr` never hold duplicate keys, so the first binding is the
only one. -/
def lookupAttr : AttrMap → String → Option String
  | [], _ => none
  | (k, v) :: rest, key => if k = key then some v else lookupAttr rest key

/-- Property assignment `obj[key] = v`: overwrite the existing binding in
place if the key is present, otherwise append a new binding at the end
(JS insertion order). -/
def setAttr : AttrMap → String → String → AttrMap
  | [], key, v => [(key, v)]
  | (k, w) :: rest, key, v =>
    if k = key then (key, v) :: rest else (k, w) :: setAttr rest key v

/-- The OTel `Resource.merge` call `detected.merge(new Resource(explicit))`:
object-spread of the explicit attributes over a copy of the detected ones,
so explicit bindings overwrite detected bindings of the same key. -/
def mergeAttrs (detected explicitAttrs : AttrMap) : AttrMap :=
  explicitAttrs.foldl (fun acc p => setAttr acc p.1 p.2) detected

/-- The keys of an attribute object are pairwise distinct (true of every
JS object; maintained by `setAttr`). -/
def nodupKeys (m : AttrMap) : Prop := (m.map Prod.fst).Nodup

/-- Reading back after a property assignment: the assigned key now holds
the assigned value, every other key is unchanged. -/
theorem lookupAttr_setAttr (m : AttrMap) (key v k : String) :
    lookupAttr (setAttr m key v) k =
      if k = key then some v else lookupAttr m k := by
  induction m with
  | nil =>
    by_cases hk : k = key
    · subst hk
      simp [setAttr, lookupAttr]
    · have hne : ¬key = k := fun hh => hk hh.symm
      simp [setAttr, lookupAttr, hk, hne]
  | cons p rest ih =>
    obtain ⟨k0, w⟩ := p
    by_cases h0 : k0 = key
    · subst h0
      by_cases hk : k = k0
      · subst hk
        simp [setAttr, lookupAttr]
      · have hne : ¬k0 = k := fun hh => hk hh.symm
        simp [setAttr, lookupAttr, hk, hne]
    · by_cases hk : k0 = k
      · have hne : ¬k = key := fun hh => h0 (by rw [hk, hh])
        simp [setAttr, lookupAttr, h0, hk, hne]
      · simp [setAttr, lookupAttr, h0, hk, ih]

theorem lookupAttr_eq_none_of_not_mem {m : AttrMap} {k : String} :
    k ∉ m.map Prod.fst → lookupAttr m k = none := by
  induction m with
  | nil =>
    intro _
    rfl
  | cons p rest ih =>
    obtain ⟨k0, v0⟩ := p
    intro h
    simp only [List.map_cons, List.mem_cons, not_or] at h
    have hk : k0 ≠ k := fun hh => h.1 hh.symm
    simp only [lookupAttr, hk, if_false]
    exact ih h.2

/-- Per-key reading of the object-spread merge: an explicit binding wins,
otherwise the detected binding (if any) survives. -/
theorem lookupAttr_mergeAttrs (detected : AttrMap) {explicitAttrs : AttrMap}
    (he : nodupKeys explicitAttrs) (k : String) :
    lookupAttr (mergeAttrs detected explicitAttrs) k =
      match lookupAttr explicitAttrs k with
      | some v => some v
      | none => lookupAttr detected k := by
  induction explicitAttrs generalizing detected with
  | nil => rfl
  | cons p rest ih =>
    obtain ⟨k0, v0⟩ := p
    have he2 : k0 ∉ rest.map Prod.fst ∧ nodupKeys rest := by
      simpa [nodupKeys] using he
    have hmerge : mergeAttrs detected ((k0, v0) :: rest) =
        mergeAttrs (setAttr detected k0 v0) rest := rfl
    rw [hmerge, ih (setAttr detected k0 v0) he2.2]
    by_cases hk : k0 = k
    · subst hk
      rw [lookupAttr_eq_none_of_not_mem he2.1]
      simp [lookupAttr, lookupAttr_setAttr]
    · cases hh : lookupAttr rest k with
      | some w => simp [lookupAttr, hk, hh]
      | none =>
        have hne : ¬k = k0 := fun h2 => hk h2.symm
        simp [lookupAttr, hk, hh, lookupAttr_setAttr, hne]

theorem mem_keys_setAttr {m : AttrMap} {key v a : String} :
    a ∈ (setAttr m key v).map Prod.fst → a = key ∨ a ∈ m.map Prod.fst := by
  induction m with
  | nil =>
    intro h
    simpa [setAttr] using h
  | cons p rest ih =>
    obtain ⟨k0, w⟩ := p
    intro h
    simp only [List.map_cons, List.mem_cons]
    by_cases h0 : k0 = key
    · subst h0
      simp only [setAttr, eq_self_iff_true, if_true, List.map_cons,
        List.mem_cons] at h
      exact h.imp id Or.inr
    · simp only [setAttr, if_neg h0, List.map_cons, List.mem_cons] at h
      rcases h with h | h
      · exact Or.inr (Or.inl h)
      · rcases ih h with h | h
        · exact Or.inl h
        · exact Or.inr (Or.inr h)

theorem nodupKeys_setAttr {m : AttrMap} (key v : String) :
    nodupKeys m → nodupKeys (setAttr m key v) := by
  induction m with
  | nil =>
    intro _
    simp [setAttr, nodupKeys]
  | cons p rest ih =>
    obtain ⟨k0, w⟩ := p
    intro h
    have h2 : k0 ∉ rest.map Prod.fst ∧ nodupKeys rest := by
      simpa [nodupKeys] using h
    by_cases h0 : k0 = key
    · subst h0
      simp only [setAttr, eq_self_iff_true, if_true]
      simpa [nodupKeys] using h2
    · simp only [setAttr, if_neg h0]
      have htail := ih h2.2
      unfold nodupKeys at htail ⊢
      simp only [List.map_cons, List.nodup_cons]
      refine ⟨?_, htail⟩
      intro hmem
      rcases mem_keys_setAttr hmem with hh | hh
      · exact h0 hh
      · exact h2.1 hh

/-- Attribute keys from the semantic-conventions package, with their
published string values. -/
def SEMRESATTRS_SERVICE_NAMESPACE : String := "service.namespace"

def SEMRESATTRS_SERVICE_NAME : String := "service.name"

def SEMRESATTRS_SERVICE_VERSION : String := "service.version"

def SEMRESATTRS_K8S_POD_NAME : String := "k8s.pod.name"

def SEMRESATTRS_CLOUD_PLATFORM : String := "cloud.platform"

def SEMRESATTRS_FAAS_ID : String := "faas.id"

def SEMRESATTRS_SERVICE_INSTANCE_ID : String := "service.instance.id"

/-- The static explicit resource attributes object from the main module:
namespace, service name, service version. -/
def RESOURCE_ATTRIBUTES : AttrMap :=
  [(SEMRESATTRS_SERVICE_NAMESPACE, "nielm"),
   (SEMRESATTRS_SERVICE_NAME, "counters-test"),
   (SEMRESATTRS_SERVICE_VERSION, "1.0.0")]

def COUNTERS_PREFIX : String := "nielm-test/"

/-- The environment variables the main module consumes.  A missing
variable is `none`; a present variable carries its (possibly empty)
string value. -/
structure Env where
  kubernetesServiceHost : Option String
  k8sPodName : Option String
  functionTarget : Option String
  useOtelGcfWorkaround : Option String

/-- JS truthiness of `process.env.X`: the variable is set and its string
value is non-empty. -/
def envTruthy : Option String → Bool
  | some s => !s.isEmpty
  | none => false

/-- The value produced by `new GcpDetectorSync().detect()`: an attribute
object plus the presence of the optional `waitForAsyncAttributes`
operation.  The detector is an external collaborator, so its output is
quantified over. -/
structure GcpDetectedResource where
  attributes : AttrMap
  hasWaitForAsyncAttributes : Bool

/-- Fault injection for the genuinely fallible steps of `initMetrics`:
the detector call, the two awaited attribute resolutions, and exporter /
provider construction.  (`createCounter` on a fixed valid name does not
throw in the metrics SDK, and the preceding environment checks are pure.) -/
inductive Fault where
  | noFault
  | atDetect
  | atDetectorAwait
  | atMergedAwait
  | atExporter
  | atProvider
deriving DecidableEq

/-- Observable events of one process run, in program order. -/
inductive Event where
  | debugLog (msg : String)
  | warnLog (msg : String)
  | infoLog (msg : String)
  | errorLogged
  | k8sCheck
  | detectorInvoked
  | detectorAwaited
  | mergePerformed
  | mergedAwaited
  | resolvedLogged (attrs : AttrMap)
  | exporterConstructed
  | providerConstructed
  | counterCreated (name : String)
  | handlerRegistered
  | intervalStarted
  | exit (code : Nat)
deriving DecidableEq

def K8S_POD_NAME_WARNING : String :=
  "WARNING: running under Kubernetes, but K8S_POD_NAME environment variable is not set. This may lead to Send TimeSeries errors"

def FAAS_ID_WARNING : String :=
  "WARNING: running under Cloud Functions, but FAAS_ID resource attribute is not set. This may lead to Send TimeSeries errors"

def DEFAULT_BEHAVIOR_WARNING : String :=
  "WARNING: Using Default Cloud Functions Behavior"

/-- The explicit attribute object after the Kubernetes block of
`initMetrics` (lines 50-63): under an orchestrator-presence signal the
pod name is assigned when its variable is truthy, otherwise only a
warning is emitted. -/
def k8sAttrs (env : Env) : AttrMap :=
  if envTruthy env.kubernetesServiceHost then
    if envTruthy env.k8sPodName then
      setAttr RESOURCE_ATTRIBUTES SEMRESATTRS_K8S_POD_NAME (env.k8sPodName.getD "")
    else RESOURCE_ATTRIBUTES
  else RESOURCE_ATTRIBUTES

/-- Events emitted by the Kubernetes block (mirrors the branches of
`k8sAttrs`). -/
def k8sEvents (env : Env) : List Event :=
  if envTruthy env.kubernetesServiceHost then
    if envTruthy env.k8sPodName then [Event.k8sCheck]
    else [Event.k8sCheck, Event.warnLog K8S_POD_NAME_WARNING]
  else [Event.k8sCheck]

/-- The explicit attribute object after the Cloud Functions block of
`initMetrics` (lines 70-91): with both the function-target signal and the
opt-in flag truthy, the platform key is forced to the generic-task value
and a truthy detected function-instance identifier is copied into the
instance-id key. -/
def gcfAttrs (env : Env) (det : GcpDetectedResource) : AttrMap :=
  if envTruthy env.functionTarget && envTruthy env.useOtelGcfWorkaround then
    let ra2 := setAttr (k8sAttrs env) SEMRESATTRS_CLOUD_PLATFORM "generic_task"
    match lookupAttr det.attributes SEMRESATTRS_FAAS_ID with
    | some v => if v.isEmpty then ra2 else setAttr ra2 SEMRESATTRS_SERVICE_INSTANCE_ID v
    | none => ra2
  else k8sAttrs env

/-- Events emitted by the Cloud Functions block (mirrors the branches of
`gcfAttrs`). -/
def gcfEvents (env : Env) (det : GcpDetectedResource) : List Event :=
  if envTruthy env.functionTarget && envTruthy env.useOtelGcfWorkaround then
    match lookupAttr det.attributes SEMRESATTRS_FAAS_ID with
    | some v => if v.isEmpty then [Event.warnLog FAAS_ID_WARNING] else []
    | none => [Event.warnLog FAAS_ID_WARNING]
  else [Event.warnLog DEFAULT_BEHAVIOR_WARNING]

/-- The merged resource built at line 93:
`gcpResources.merge(new Resource(RESOURCE_ATTRIBUTES))` after the two
conditional blocks have updated the explicit attributes. -/
def resolvedAttrs (env : Env) (det : GcpDetectedResource) : AttrMap :=
  mergeAttrs det.attributes (gcfAttrs env det)

/-- Events and outcome of `initMetrics` from the merge await (line 94)
onward: resolved-identity log, exporter construction, provider
construction, creation of the two counters, readiness log. -/
def afterMergeEvents (f : Fault) (merged : AttrMap) :
    List Event × Except Unit AttrMap :=
  if f = Fault.atMergedAwait then ([], Except.error ())
  else if f = Fault.atExporter then
    ([Event.mergedAwaited, Event.resolvedLogged merged], Except.error ())
  else if f = Fault.atProvider then
    ([Event.mergedAwaited, Event.resolvedLogged merged,
      Event.exporterConstructed], Except.error ())
  else
    ([Event.mergedAwaited, Event.resolvedLogged merged,
      Event.exporterConstructed, Event.providerConstructed,
      Event.counterCreated (COUNTERS_PREFIX ++ "request-counter"),
      Event.counterCreated (COUNTERS_PREFIX ++ "background-counter"),
      Event.infoLog "Metrics initialized, counters ready"],
     Except.ok merged)

/-- One run of the asynchronous `initMetrics` function, split at its
first suspension point.  `syncEvents` happen during module evaluation;
`asyncEvents` happen after the module body has finished.  The first
suspension is the detector await (line 67) when the detected resource
offers `waitForAsyncAttributes`, and the merge await (line 94)
otherwise. -/
structure InitRun where
  syncEvents : List Event
  asyncEvents : List Event
  result : Except Unit AttrMap

def initMetricsRun (env : Env) (det : GcpDetectedResource) (f : Fault) :
    InitRun :=
  if f = Fault.atDetect then
    ⟨Event.debugLog "initializing metrics" ::
       (k8sEvents env ++ [Event.detectorInvoked]),
     [], Except.error ()⟩
  else if det.hasWaitForAsyncAttributes then
    if f = Fault.atDetectorAwait then
      ⟨Event.debugLog "initializing metrics" ::
         (k8sEvents env ++ [Event.detectorInvoked]),
       [], Except.error ()⟩
    else
      ⟨Event.debugLog "initializing metrics" ::
         (k8sEvents env ++ [Event.detectorInvoked]),
       Event.detectorAwaited ::
         ((gcfEvents env det ++ [Event.mergePerformed]) ++
           (afterMergeEvents f (resolvedAttrs env det)).1),
       (afterMergeEvents f (resolvedAttrs env det)).2⟩
  else
    ⟨(Event.debugLog "initializing metrics" ::
        (k8sEvents env ++ [Event.detectorInvoked])) ++
       (gcfEvents env det ++ [Event.mergePerformed]),
     (afterMergeEvents f (resolvedAttrs env det)).1,
     (afterMergeEvents f (resolvedAttrs env det)).2⟩

/-- The events of one `initMetrics` run in order. -/
def initTrace (env : Env) (det : GcpDetectedResource) (f : Fault) :
    List Event :=
  (initMetricsRun env det f).syncEvents ++ (initMetricsRun env det f).asyncEvents

/-- The whole module-load trace: the synchronous part of `initMetrics`,
then the module-level statements (HTTP handler registration at line 135
and the readiness log at line 141), then the asynchronous remainder of
`initMetrics`, then its `then` continuation (background interval start)
or its `catch` continuation (error log and `process.exit(1)`). -/
def moduleTrace (env : Env) (det : GcpDetectedResource) (f : Fault) :
    List Event :=
  (initMetricsRun env det f).syncEvents
    ++ [Event.handlerRegistered, Event.infoLog "HTTP handler ready."]
    ++ (initMetricsRun env det f).asyncEvents
    ++ (match (initMetricsRun env det f).result with
        | Except.ok _ =>
          [Event.intervalStarted,
           Event.infoLog "Background task started - increments counter ever 2 seconds"]
        | Except.error _ => [Event.errorLogged, Event.exit 1])

/-- The two module-global counter handles (`requestCounter`,
`backgroundCounter`).  A handle is `none` while unbound — reading `add`
off it then throws — and carries its accumulated value once bound. -/
structure ModuleState where
  requestCounter : Option Nat
  backgroundCounter : Option Nat
deriving DecidableEq

/-- The counter bindings after module load: bound (starting at zero) when
`initMetrics` resolved, still unbound when it rejected. -/
def moduleState (env : Env) (det : GcpDetectedResource) (f : Fault) :
    ModuleState :=
  match (initMetricsRun env det f).result with
  | Except.ok _ => ⟨some 0, some 0⟩
  | Except.error _ => ⟨none, none⟩

/-- The background timer callback (lines 122-124):
`backgroundCounter.add(1)`; throws when the handle is unbound. -/
def backgroundTask (s : ModuleState) : Except Unit ModuleState :=
  match s.backgroundCounter with
  | some n => Except.ok {s with backgroundCounter := some (n + 1)}
  | none => Except.error ()

/-- The HTTP request hook (lines 135-139): `requestCounter.add(1)` then
`res.send("OK")`; throws when the handle is unbound. -/
def handleHttpReq (s : ModuleState) : Except Unit (ModuleState × String) :=
  match s.requestCounter with
  | some n => Except.ok ({s with requestCounter := some (n + 1)}, "OK")
  | none => Except.error ()

/-- One writer invocation: a background-timer tick or an inbound
request. -/
inductive CallEvent where
  | tick
  | request
deriving DecidableEq

/-- Run an arbitrary interleaving of the two counter writers, collecting
the response sent for each request. -/
def runCalls : ModuleState → List CallEvent → Except Unit (ModuleState × List String)
  | s, [] => Except.ok (s, [])
  | s, CallEvent.tick :: rest =>
    match backgroundTask s with
    | Except.ok s2 => runCalls s2 rest
    | Except.error e => Except.error e
  | s, CallEvent.request :: rest =>
    match handleHttpReq s with
    | Except.ok sr =>
      match runCalls sr.1 rest with
      | Except.ok st => Except.ok (st.1, sr.2 :: st.2)
      | Except.error e => Except.error e
    | Except.error e => Except.error e

def countTicks : List CallEvent → Nat
  | [] => 0
  | CallEvent.tick :: rest => countTicks rest + 1
  | CallEvent.request :: rest => countTicks rest

def countRequests : List CallEvent → Nat
  | [] => 0
  | CallEvent.tick :: rest => countRequests rest
  | CallEvent.request :: rest => countRequests rest + 1

/-- Trace checker: every event satisfying `q` is strictly preceded by
some event satisfying `p`.  `seen` records whether a `p`-event has
already occurred. -/
def seqCheck (p q : Event → Bool) : Bool → List Event → Bool
  | _, [] => true
  | seen, e :: rest =>
    if q e && !seen then false else seqCheck p q (seen || p e) rest

def isMergedAwaited : Event → Bool
  | Event.mergedAwaited => true
  | _ => false

def isProviderOrCounter : Event → Bool
  | Event.providerConstructed => true
  | Event.counterCreated _ => true
  | _ => false

def isK8sCheck : Event → Bool
  | Event.k8sCheck => true
  | _ => false

def isDetectorEvent : Event → Bool
  | Event.detectorInvoked => true
  | Event.detectorAwaited => true
  | _ => false

def isErrorLogged : Event → Bool
  | Event.errorLogged => true
  | _ => false

def isExit : Event → Bool
  | Event.exit _ => true
  | _ => false

def isExitNonzero : Event → Bool
  | Event.exit c => c != 0
  | _ => false

def isCounterCreated : Event → Bool
  | Event.counterCreated _ => true
  | _ => false

def isHandlerRegistered : Event → Bool
  | Event.handlerRegistered => true
  | _ => false

/-- Events that can only happen once initialization has bound the
counters or given up: counter creation, interval start, process exit. -/
def isPostBindEvent : Event → Bool
  | Event.counterCreated _ => true
  | Event.intervalStarted => true
  | Event.exit _ => true
  | _ => false

theorem nodupKeys_RESOURCE_ATTRIBUTES : nodupKeys RESOURCE_ATTRIBUTES := by
  unfold nodupKeys RESOURCE_ATTRIBUTES
  decide

theorem nodupKeys_k8sAttrs (env : Env) : nodupKeys (k8sAttrs env) := by
  unfold k8sAttrs
  split
  · split
    · exact nodupKeys_setAttr _ _ nodupKeys_RESOURCE_ATTRIBUTES
    · exact nodupKeys_RESOURCE_ATTRIBUTES
  · exact nodupKeys_RESOURCE_ATTRIBUTES

theorem nodupKeys_gcfAttrs (env : Env) (det : GcpDetectedResource) :
    nodupKeys (gcfAttrs env det) := by
  unfold gcfAttrs
  split
  · split
    · split
      · exact nodupKeys_setAttr _ _ (nodupKeys_k8sAttrs env)
      · exact nodupKeys_setAttr _ _ (nodupKeys_setAttr _ _ (nodupKeys_k8sAttrs env))
    · exact nodupKeys_setAttr _ _ (nodupKeys_k8sAttrs env)
  · exact nodupKeys_k8sAttrs env

theorem lookupAttr_k8sAttrs_ne (env : Env) {k : String}
    (h : k ≠ SEMRESATTRS_K8S_POD_NAME) :
    lookupAttr (k8sAttrs env) k = lookupAttr RESOURCE_ATTRIBUTES k := by
  unfold k8sAttrs
  split
  · split
    · rw [lookupAttr_setAttr, if_neg h]
    · rfl
  · rfl

theorem lookupAttr_gcfAttrs_ne (env : Env) (det : GcpDetectedResource)
    {k : String} (h1 : k ≠ SEMRESATTRS_CLOUD_PLATFORM)
    (h2 : k ≠ SEMRESATTRS_SERVICE_INSTANCE_ID) :
    lookupAttr (gcfAttrs env det) k = lookupAttr (k8sAttrs env) k := by
  unfold gcfAttrs
  split
  · split
    · split
      · rw [lookupAttr_setAttr, if_neg h1]
      · rw [lookupAttr_setAttr, if_neg h2, lookupAttr_setAttr, if_neg h1]
    · rw [lookupAttr_setAttr, if_neg h1]
  · rfl

/-- C6: per-key description of the merged identity built by
`gcpResources.merge(new Resource(RESOURCE_ATTRIBUTES))` — an explicitly
assigned key keeps its explicit value, any other key keeps its
auto-detected value.  (`Resource.merge` itself is dependency code, so the
merge is modelled from the design document's object-spread description,
explicit assignments winning.) -/
theorem c6_merge_explicit_precedence (env : Env) (det : GcpDetectedResource)
    (k : String) :
    (∀ v, lookupAttr (gcfAttrs env det) k = some v →
      lookupAttr (resolvedAttrs env det) k = some v)
    ∧ (lookupAttr (gcfAttrs env det) k = none →
      lookupAttr (resolvedAttrs env det) k = lookupAttr det.attributes k) := by
  have h := lookupAttr_mergeAttrs det.attributes (nodupKeys_gcfAttrs env det) k
  constructor
  · intro v hv
    rw [resolvedAttrs, h, hv]
  · intro hn
    rw [resolvedAttrs, h, hn]

def envK8s : Env := ⟨some "10.0.0.1", some "pod-7", none, none⟩

def envGcf : Env := ⟨none, none, some "handleHttpReq", some "1"⟩

def envPlain : Env := ⟨none, none, none, none⟩

def detWithFaas : GcpDetectedResource :=
  ⟨[("cloud.platform", "gcp_cloud_functions"), ("faas.id", "abc123")], true⟩

def detEmpty : GcpDetectedResource := ⟨[], true⟩

theorem c6_merge_explicit_precedence_witness :
    lookupAttr (gcfAttrs envGcf detWithFaas) "cloud.platform" =
      some "generic_task"
    ∧ lookupAttr (resolvedAttrs envGcf detWithFaas) "cloud.platform" =
      some "generic_task" :=
  ⟨by decide,
   (c6_merge_explicit_precedence envGcf detWithFaas "cloud.platform").1
     "generic_task" (by decide)⟩

/-- C5: whatever the environment variables and the detector output, the
resolved identity handed to the provider holds the three static keys with
their static values. -/
theorem c5_static_keys_always_present (env : Env) (det : GcpDetectedResource) :
    lookupAttr (resolvedAttrs env det) SEMRESATTRS_SERVICE_NAMESPACE = some "nielm"
    ∧ lookupAttr (resolvedAttrs env det) SEMRESATTRS_SERVICE_NAME = some "counters-test"
    ∧ lookupAttr (resolvedAttrs env det) SEMRESATTRS_SERVICE_VERSION = some "1.0.0" := by
  have h := lookupAttr_mergeAttrs det.attributes (nodupKeys_gcfAttrs env det)
  refine ⟨?_, ?_, ?_⟩ <;>
    rw [resolvedAttrs, h, lookupAttr_gcfAttrs_ne env det (by decide) (by decide),
      lookupAttr_k8sAttrs_ne env (by decide)] <;>
    rfl

/-- C3: with both the function-target signal and the opt-in flag truthy,
the merged identity's platform key is the fixed generic-task value, no
matter what platform the auto-detector supplied. -/
theorem c3_platform_forced_generic_task (env : Env) (det : GcpDetectedResource)
    (hft : envTruthy env.functionTarget = true)
    (hwk : envTruthy env.useOtelGcfWorkaround = true) :
    lookupAttr (resolvedAttrs env det) SEMRESATTRS_CLOUD_PLATFORM =
      some "generic_task" := by
  have hgcf : lookupAttr (gcfAttrs env det) SEMRESATTRS_CLOUD_PLATFORM =
      some "generic_task" := by
    unfold gcfAttrs
    rw [hft, hwk]
    simp only [Bool.and_self, if_true]
    cases hfa : lookupAttr det.attributes SEMRESATTRS_FAAS_ID with
    | some v =>
      by_cases hv : v.isEmpty
      · simp only [hv, if_true]
        rw [lookupAttr_setAttr, if_pos rfl]
      · simp only [hv, if_false, Bool.false_eq_true]
        rw [lookupAttr_setAttr, if_neg (by decide), lookupAttr_setAttr, if_pos rfl]
    | none =>
      rw [lookupAttr_setAttr, if_pos rfl]
  rw [resolvedAttrs,
    lookupAttr_mergeAttrs det.attributes (nodupKeys_gcfAttrs env det), hgcf]

theorem c3_platform_forced_generic_task_witness :
    envTruthy envGcf.functionTarget = true
    ∧ envTruthy envGcf.useOtelGcfWorkaround = true
    ∧ lookupAttr (resolvedAttrs envGcf detWithFaas) SEMRESATTRS_CLOUD_PLATFORM =
      some "generic_task" :=
  ⟨by decide, by decide,
   c3_platform_forced_generic_task envGcf detWithFaas (by decide) (by decide)⟩

theorem initMetricsRun_noFault_result (env : Env) (det : GcpDetectedResource) :
    (initMetricsRun env det Fault.noFault).result =
      Except.ok (resolvedAttrs env det) := by
  unfold initMetricsRun
  cases hdet : det.hasWaitForAsyncAttributes <;>
    simp [hdet, afterMergeEvents]

theorem mem_initTrace_of_mem_gcfEvents {env : Env} {det : GcpDetectedResource}
    {e : Event} (h : e ∈ gcfEvents env det) :
    e ∈ initTrace env det Fault.noFault := by
  unfold initTrace initMetricsRun
  cases hdet : det.hasWaitForAsyncAttributes
  · simp only [hdet, reduceCtorEq, if_false, Bool.false_eq_true]
    exact List.mem_append_left _
      (List.mem_append_right _ (List.mem_append_left _ h))
  · simp only [hdet, reduceCtorEq, if_false, if_true]
    refine List.mem_append_right _ ?_
    exact List.mem_cons_of_mem _
      (List.mem_append_left _ (List.mem_append_left _ h))

theorem mem_initTrace_of_mem_k8sEvents {env : Env} {det : GcpDetectedResource}
    {e : Event} (h : e ∈ k8sEvents env) (f : Fault) :
    e ∈ initTrace env det f := by
  unfold initTrace initMetricsRun
  have hsync : e ∈ Event.debugLog "initializing metrics" ::
      (k8sEvents env ++ [Event.detectorInvoked]) :=
    List.mem_cons_of_mem _ (List.mem_append_left _ h)
  split
  · exact List.mem_append_left _ hsync
  · split
    · split
      · exact List.mem_append_left _ hsync
      · exact List.mem_append_left _ hsync
    · exact List.mem_append_left _ (List.mem_append_left _ hsync)

theorem countP_isExit_k8sEvents (env : Env) :
    (k8sEvents env).countP isExit = 0 := by
  unfold k8sEvents
  split
  · split <;> rfl
  · rfl

theorem countP_isExit_gcfEvents (env : Env) (det : GcpDetectedResource) :
    (gcfEvents env det).countP isExit = 0 := by
  unfold gcfEvents
  split
  · split
    · split <;> rfl
    · rfl
  · rfl

theorem countP_isExit_afterMergeEvents (f : Fault) (merged : AttrMap) :
    ((afterMergeEvents f merged).1).countP isExit = 0 := by
  unfold afterMergeEvents
  split
  · rfl
  · split
    · rfl
    · split <;> rfl

theorem countP_isExit_moduleTrace_noFault (env : Env)
    (det : GcpDetectedResource) :
    (moduleTrace env det Fault.noFault).countP isExit = 0 := by
  simp only [moduleTrace]
  rw [initMetricsRun_noFault_result env det]
  cases hdet : det.hasWaitForAsyncAttributes <;>
    simp [initMetricsRun, hdet, List.countP_append, List.countP_cons,
      countP_isExit_k8sEvents, countP_isExit_gcfEvents,
      countP_isExit_afterMergeEvents, isExit]

/-- C2: with the opt-in flag and the function-target signal both set, a
non-empty detected function-instance identifier becomes the resolved
identity's instance-id value; an absent identifier leaves the instance-id
key out of the resolved identity (the GCP detector does not emit that key
itself), logs the FAAS_ID warning, and initialization still resolves. -/
theorem c2_instance_id_from_detected_faas (env : Env) (det : GcpDetectedResource)
    (hft : envTruthy env.functionTarget = true)
    (hwk : envTruthy env.useOtelGcfWorkaround = true) :
    (∀ v, lookupAttr det.attributes SEMRESATTRS_FAAS_ID = some v → v ≠ "" →
      lookupAttr (resolvedAttrs env det) SEMRESATTRS_SERVICE_INSTANCE_ID = some v)
    ∧ (lookupAttr det.attributes SEMRESATTRS_FAAS_ID = none →
      lookupAttr det.attributes SEMRESATTRS_SERVICE_INSTANCE_ID = none →
      lookupAttr (resolvedAttrs env det) SEMRESATTRS_SERVICE_INSTANCE_ID = none
      ∧ Event.warnLog FAAS_ID_WARNING ∈ initTrace env det Fault.noFault
      ∧ (initMetricsRun env det Fault.noFault).result =
          Except.ok (resolvedAttrs env det)) := by
  have hmerge := lookupAttr_mergeAttrs det.attributes
    (nodupKeys_gcfAttrs env det) SEMRESATTRS_SERVICE_INSTANCE_ID
  constructor
  · intro v hv hne
    have hvempty : v.isEmpty = false := by
      cases hh : v.isEmpty
      · rfl
      · exact absurd ((String.isEmpty_iff v).mp hh) hne
    have hgcf : lookupAttr (gcfAttrs env det) SEMRESATTRS_SERVICE_INSTANCE_ID =
        some v := by
      unfold gcfAttrs
      simp only [hft, hwk, Bool.and_self, eq_self_iff_true, if_true]
      rw [hv]
      simp only [hvempty, Bool.false_eq_true, if_false]
      rw [lookupAttr_setAttr, if_pos rfl]
    rw [resolvedAttrs, hmerge, hgcf]
  · intro hfaas hinst
    have hgcf : lookupAttr (gcfAttrs env det) SEMRESATTRS_SERVICE_INSTANCE_ID =
        none := by
      unfold gcfAttrs
      simp only [hft, hwk, Bool.and_self, eq_self_iff_true, if_true]
      rw [hfaas, lookupAttr_setAttr, if_neg (by decide),
        lookupAttr_k8sAttrs_ne env (by decide)]
      decide
    refine ⟨?_, ?_, initMetricsRun_noFault_result env det⟩
    · rw [resolvedAttrs, hmerge, hgcf]
      exact hinst
    · apply mem_initTrace_of_mem_gcfEvents
      unfold gcfEvents
      simp only [hft, hwk, Bool.and_self, eq_self_iff_true, if_true]
      rw [hfaas]
      simp

theorem c2_instance_id_from_detected_faas_witness :
    lookupAttr detWithFaas.attributes SEMRESATTRS_FAAS_ID = some "abc123"
    ∧ lookupAttr (resolvedAttrs envGcf detWithFaas)
        SEMRESATTRS_SERVICE_INSTANCE_ID = some "abc123" :=
  ⟨by decide,
   (c2_instance_id_from_detected_faas envGcf detWithFaas (by decide)
     (by decide)).1 "abc123" (by decide) (by decide)⟩

/-- C4: under an orchestrator-presence signal, a set pod-name variable
lands verbatim in the resolved identity's pod-name key; an unset variable
leaves the key out (the detector does not emit it), logs the pod-name
warning, and the no-fault module run performs no process exit. -/
theorem c4_pod_name_under_orchestrator (env : Env) (det : GcpDetectedResource)
    (hk8s : envTruthy env.kubernetesServiceHost = true) :
    (∀ p, env.k8sPodName = some p → p ≠ "" →
      lookupAttr (resolvedAttrs env det) SEMRESATTRS_K8S_POD_NAME = some p)
    ∧ (env.k8sPodName = none →
      lookupAttr det.attributes SEMRESATTRS_K8S_POD_NAME = none →
      lookupAttr (resolvedAttrs env det) SEMRESATTRS_K8S_POD_NAME = none
      ∧ Event.warnLog K8S_POD_NAME_WARNING ∈ initTrace env det Fault.noFault
      ∧ (moduleTrace env det Fault.noFault).countP isExit = 0) := by
  have hmerge := lookupAttr_mergeAttrs det.attributes
    (nodupKeys_gcfAttrs env det) SEMRESATTRS_K8S_POD_NAME
  constructor
  · intro p hp hne
    have htr : envTruthy env.k8sPodName = true := by
      rw [hp]
      unfold envTruthy
      cases hh : p.isEmpty
      · simp [hh]
      · exact absurd ((String.isEmpty_iff p).mp hh) hne
    have hk8sattr : lookupAttr (k8sAttrs env) SEMRESATTRS_K8S_POD_NAME =
        some p := by
      unfold k8sAttrs
      simp only [hk8s, htr, eq_self_iff_true, if_true]
      rw [lookupAttr_setAttr, if_pos rfl, hp]
      rfl
    have hgcf : lookupAttr (gcfAttrs env det) SEMRESATTRS_K8S_POD_NAME =
        some p :=
      (lookupAttr_gcfAttrs_ne env det (by decide) (by decide)).trans hk8sattr
    rw [resolvedAttrs, hmerge, hgcf]
  · intro hnone hdetpod
    have hfalse : envTruthy env.k8sPodName = false := by
      rw [hnone]
      rfl
    have hk8sattr : lookupAttr (k8sAttrs env) SEMRESATTRS_K8S_POD_NAME =
        none := by
      unfold k8sAttrs
      simp only [hk8s, hfalse, eq_self_iff_true, if_true, Bool.false_eq_true,
        if_false]
      decide
    have hgcf : lookupAttr (gcfAttrs env det) SEMRESATTRS_K8S_POD_NAME =
        none :=
      (lookupAttr_gcfAttrs_ne env det (by decide) (by decide)).trans hk8sattr
    refine ⟨?_, ?_, countP_isExit_moduleTrace_noFault env det⟩
    · rw [resolvedAttrs, hmerge, hgcf]
      exact hdetpod
    · apply mem_initTrace_of_mem_k8sEvents _ Fault.noFault
      unfold k8sEvents
      simp only [hk8s, hfalse, eq_self_iff_true, if_true, Bool.false_eq_true,
        if_false]
      simp

theorem c4_pod_name_under_orchestrator_witness :
    envTruthy envK8s.kubernetesServiceHost = true
    ∧ lookupAttr (resolvedAttrs envK8s detEmpty) SEMRESATTRS_K8S_POD_NAME =
      some "pod-7" :=
  ⟨by decide,
   (c4_pod_name_under_orchestrator envK8s detEmpty (by decide)).1 "pod-7"
     rfl (by decide)⟩

theorem seqCheck_of_seen (p q : Event → Bool) (l : List Event) :
    seqCheck p q true l = true := by
  induction l with
  | nil => rfl
  | cons e rest ih => simpa [seqCheck] using ih

theorem seqCheck_of_no_q (p q : Event → Bool) :
    ∀ (xs : List Event) (seen : Bool), (∀ e ∈ xs, q e = false) →
    seqCheck p q seen xs = true := by
  intro xs
  induction xs with
  | nil =>
    intro seen _
    rfl
  | cons x rest ih =>
    intro seen h
    have hx : q x = false := h x (List.mem_cons_self x rest)
    simp only [seqCheck, hx, Bool.false_and, Bool.false_eq_true, if_false]
    exact ih _ (fun e he => h e (List.mem_cons_of_mem _ he))

theorem seqCheck_append_of_no_q (p q : Event → Bool) (ys : List Event) :
    ∀ (xs : List Event) (seen : Bool), (∀ e ∈ xs, q e = false) →
    seqCheck p q seen (xs ++ ys) = seqCheck p q (seen || xs.any p) ys := by
  intro xs
  induction xs with
  | nil =>
    intro seen _
    simp
  | cons x rest ih =>
    intro seen h
    have hx : q x = false := h x (List.mem_cons_self x rest)
    simp only [List.cons_append, seqCheck, hx, Bool.false_and,
      Bool.false_eq_true, if_false, List.any_cons, List.append_eq]
    rw [ih (seen || p x) (fun e he => h e (List.mem_cons_of_mem _ he)),
      Bool.or_assoc]

theorem seqCheck_cons_not_q (p q : Event → Bool) (e : Event) (l : List Event)
    (seen : Bool) (hq : q e = false) :
    seqCheck p q seen (e :: l) = seqCheck p q (seen || p e) l := by
  simp [seqCheck, hq]

theorem mem_k8sEvents_cases {env : Env} {x : Event} (hx : x ∈ k8sEvents env) :
    x = Event.k8sCheck ∨ x = Event.warnLog K8S_POD_NAME_WARNING := by
  unfold k8sEvents at hx
  split at hx
  · split at hx
    · simp only [List.mem_singleton] at hx
      exact Or.inl hx
    · simpa using hx
  · simp only [List.mem_singleton] at hx
    exact Or.inl hx

theorem mem_gcfEvents_cases {env : Env} {det : GcpDetectedResource} {x : Event}
    (hx : x ∈ gcfEvents env det) :
    x = Event.warnLog FAAS_ID_WARNING
    ∨ x = Event.warnLog DEFAULT_BEHAVIOR_WARNING := by
  unfold gcfEvents at hx
  split at hx
  · split at hx
    · split at hx
      · simp only [List.mem_singleton] at hx
        exact Or.inl hx
      · simp at hx
    · simp only [List.mem_singleton] at hx
      exact Or.inl hx
  · simp only [List.mem_singleton] at hx
    exact Or.inr hx

theorem seqCheck_afterMergeEvents (f : Fault) (merged : AttrMap) (seen : Bool) :
    seqCheck isMergedAwaited isProviderOrCounter seen
      (afterMergeEvents f merged).1 = true := by
  unfold afterMergeEvents
  split
  · rfl
  · split
    · cases seen <;> rfl
    · split
      · cases seen <;> rfl
      · cases seen <;> rfl

/-- C1: in every run of `initMetrics` — any environment, any detector
output, any fault point — every provider-construction and
counter-creation event is strictly preceded by the completion of the
merged resource's attribute await, so the provider is never built from an
unresolved identity. -/
theorem c1_merge_await_before_provider_and_counters (env : Env)
    (det : GcpDetectedResource) (f : Fault) :
    seqCheck isMergedAwaited isProviderOrCounter false
      (initTrace env det f) = true := by
  have hsync : ∀ e ∈ Event.debugLog "initializing metrics" ::
      (k8sEvents env ++ [Event.detectorInvoked]),
      isProviderOrCounter e = false := by
    intro e he
    rcases List.mem_cons.mp he with he | he
    · subst he
      rfl
    · rcases List.mem_append.mp he with he | he
      · rcases mem_k8sEvents_cases he with he | he <;> subst he <;> rfl
      · simp only [List.mem_singleton] at he
        subst he
        rfl
  have hgcfmp : ∀ e ∈ gcfEvents env det ++ [Event.mergePerformed],
      isProviderOrCounter e = false := by
    intro e he
    rcases List.mem_append.mp he with he | he
    · rcases mem_gcfEvents_cases he with he | he <;> subst he <;> rfl
    · simp only [List.mem_singleton] at he
      subst he
      rfl
  unfold initTrace initMetricsRun
  split
  · exact seqCheck_of_no_q _ _ _ _ (fun e he => hsync e (by simpa using he))
  · split
    · split
      · exact seqCheck_of_no_q _ _ _ _ (fun e he => hsync e (by simpa using he))
      · show seqCheck _ _ false
          ((Event.debugLog "initializing metrics" ::
             (k8sEvents env ++ [Event.detectorInvoked])) ++
            (Event.detectorAwaited ::
              ((gcfEvents env det ++ [Event.mergePerformed]) ++
                (afterMergeEvents f (resolvedAttrs env det)).1))) = true
        rw [seqCheck_append_of_no_q _ _ _ _ false hsync,
          seqCheck_cons_not_q _ _ _ _ _ rfl,
          seqCheck_append_of_no_q _ _ _ _ _ hgcfmp]
        exact seqCheck_afterMergeEvents f _ _
    · show seqCheck _ _ false
        (((Event.debugLog "initializing metrics" ::
            (k8sEvents env ++ [Event.detectorInvoked])) ++
           (gcfEvents env det ++ [Event.mergePerformed])) ++
          (afterMergeEvents f (resolvedAttrs env det)).1) = true
      have hall : ∀ e ∈ (Event.debugLog "initializing metrics" ::
          (k8sEvents env ++ [Event.detectorInvoked])) ++
          (gcfEvents env det ++ [Event.mergePerformed]),
          isProviderOrCounter e = false := by
        intro e he
        rcases List.mem_append.mp he with he | he
        · exact hsync e he
        · exact hgcfmp e he
      rw [seqCheck_append_of_no_q _ _ _ _ false hall]
      exact seqCheck_afterMergeEvents f _ _

/-- C7 as stated is false of the code: in the run with an empty
environment, an empty detector output and no fault, the initialization
trace performs the orchestration (Kubernetes host) check before any
detector event, so the detector events do not precede it. -/
theorem c7_detector_first_counterexample :
    seqCheck isDetectorEvent isK8sCheck false
      (initTrace envPlain detEmpty Fault.noFault) = false := by
  rfl

/-- C7 amended: the orchestration context is determined first — the
container-orchestrator host signal is checked (with the conditional
pod-name assignment) — and only afterwards is the Detector invoked and
its pending-attribute resolution awaited. -/
theorem c7_orchestration_check_before_detector (env : Env)
    (det : GcpDetectedResource) (f : Fault) :
    seqCheck isK8sCheck isDetectorEvent false
      (initTrace env det f) = true := by
  obtain ⟨t, ht⟩ : ∃ t, k8sEvents env = Event.k8sCheck :: t := by
    unfold k8sEvents
    split
    · split
      · exact ⟨[], rfl⟩
      · exact ⟨[Event.warnLog K8S_POD_NAME_WARNING], rfl⟩
    · exact ⟨[], rfl⟩
  unfold initTrace initMetricsRun
  rw [ht]
  split
  · rw [show (Event.debugLog "initializing metrics" ::
        ((Event.k8sCheck :: t) ++ [Event.detectorInvoked])) ++
        ([] : List Event) =
        Event.debugLog "initializing metrics" :: Event.k8sCheck ::
          (t ++ [Event.detectorInvoked] ++ []) by simp,
      seqCheck_cons_not_q _ _ _ _ _ rfl,
      seqCheck_cons_not_q _ _ _ _ _ rfl]
    exact seqCheck_of_seen _ _ _
  · split
    · split
      · rw [show (Event.debugLog "initializing metrics" ::
            ((Event.k8sCheck :: t) ++ [Event.detectorInvoked])) ++
            ([] : List Event) =
            Event.debugLog "initializing metrics" :: Event.k8sCheck ::
              (t ++ [Event.detectorInvoked] ++ []) by simp,
          seqCheck_cons_not_q _ _ _ _ _ rfl,
          seqCheck_cons_not_q _ _ _ _ _ rfl]
        exact seqCheck_of_seen _ _ _
      · rw [show (Event.debugLog "initializing metrics" ::
            ((Event.k8sCheck :: t) ++ [Event.detectorInvoked])) ++
            (Event.detectorAwaited ::
              ((gcfEvents env det ++ [Event.mergePerformed]) ++
                (afterMergeEvents f (resolvedAttrs env det)).1)) =
            Event.debugLog "initializing metrics" :: Event.k8sCheck ::
              (t ++ (Event.detectorInvoked ::
                Event.detectorAwaited ::
                  ((gcfEvents env det ++ [Event.mergePerformed]) ++
                    (afterMergeEvents f (resolvedAttrs env det)).1))) by simp,
          seqCheck_cons_not_q _ _ _ _ _ rfl,
          seqCheck_cons_not_q _ _ _ _ _ rfl]
        exact seqCheck_of_seen _ _ _
    · rw [show ((Event.debugLog "initializing metrics" ::
            ((Event.k8sCheck :: t) ++ [Event.detectorInvoked])) ++
           (gcfEvents env det ++ [Event.mergePerformed])) ++
          (afterMergeEvents f (resolvedAttrs env det)).1 =
          Event.debugLog "initializing metrics" :: Event.k8sCheck ::
            (t ++ (Event.detectorInvoked ::
              ((gcfEvents env det ++ [Event.mergePerformed]) ++
                (afterMergeEvents f (resolvedAttrs env det)).1))) by simp,
        seqCheck_cons_not_q _ _ _ _ _ rfl,
        seqCheck_cons_not_q _ _ _ _ _ rfl]
      exact seqCheck_of_seen _ _ _

theorem mem_sync0_cases {env : Env} {e : Event}
    (he : e ∈ Event.debugLog "initializing metrics" ::
      (k8sEvents env ++ [Event.detectorInvoked])) :
    e = Event.debugLog "initializing metrics" ∨ e = Event.k8sCheck
    ∨ e = Event.warnLog K8S_POD_NAME_WARNING ∨ e = Event.detectorInvoked := by
  rcases List.mem_cons.mp he with he | he
  · exact Or.inl he
  rcases List.mem_append.mp he with he | he
  · rcases mem_k8sEvents_cases he with he | he
    · exact Or.inr (Or.inl he)
    · exact Or.inr (Or.inr (Or.inl he))
  · simp only [List.mem_singleton] at he
    exact Or.inr (Or.inr (Or.inr he))

theorem afterMerge_error_event_cases (f : Fault) (merged : AttrMap)
    (e : Event) :
    (afterMergeEvents f merged).2 = Except.error () →
    e ∈ (afterMergeEvents f merged).1 →
    isErrorLogged e = false ∧ isExitNonzero e = false
      ∧ isCounterCreated e = false ∧ isPostBindEvent e = false := by
  unfold afterMergeEvents
  split
  · intro _ he
    simp at he
  · split
    · intro _ he
      simp only [List.mem_cons, List.not_mem_nil, or_false] at he
      rcases he with he | he <;> subst he <;> exact ⟨rfl, rfl, rfl, rfl⟩
    · split
      · intro _ he
        simp only [List.mem_cons, List.not_mem_nil, or_false] at he
        rcases he with he | he | he <;> subst he <;> exact ⟨rfl, rfl, rfl, rfl⟩
      · intro hres _
        simp at hres

theorem gcfmp_event_cases {env : Env} {det : GcpDetectedResource} {e : Event}
    (he : e ∈ gcfEvents env det ++ [Event.mergePerformed]) :
    e = Event.warnLog FAAS_ID_WARNING
    ∨ e = Event.warnLog DEFAULT_BEHAVIOR_WARNING
    ∨ e = Event.mergePerformed := by
  rcases List.mem_append.mp he with he | he
  · rcases mem_gcfEvents_cases he with he | he
    · exact Or.inl he
    · exact Or.inr (Or.inl he)
  · simp only [List.mem_singleton] at he
    exact Or.inr (Or.inr he)

theorem initRun_error_event_cases (env : Env) (det : GcpDetectedResource)
    (f : Fault) :
    (initMetricsRun env det f).result = Except.error () →
    ∀ e, (e ∈ (initMetricsRun env det f).syncEvents
        ∨ e ∈ (initMetricsRun env det f).asyncEvents) →
    isErrorLogged e = false ∧ isExitNonzero e = false
      ∧ isCounterCreated e = false := by
  unfold initMetricsRun
  split
  · intro _ e he
    rcases he with he | he
    · rcases mem_sync0_cases he with he | he | he | he <;> subst he <;>
        exact ⟨rfl, rfl, rfl⟩
    · simp at he
  · split
    · split
      · intro _ e he
        rcases he with he | he
        · rcases mem_sync0_cases he with he | he | he | he <;> subst he <;>
            exact ⟨rfl, rfl, rfl⟩
        · simp at he
      · intro hres e he
        rcases he with he | he
        · rcases mem_sync0_cases he with he | he | he | he <;> subst he <;>
            exact ⟨rfl, rfl, rfl⟩
        · rcases List.mem_cons.mp he with he | he
          · subst he
            exact ⟨rfl, rfl, rfl⟩
          · rcases List.mem_append.mp he with he | he
            · rcases gcfmp_event_cases he with he | he | he <;> subst he <;>
                exact ⟨rfl, rfl, rfl⟩
            · have h4 := afterMerge_error_event_cases f (resolvedAttrs env det)
                e hres he
              exact ⟨h4.1, h4.2.1, h4.2.2.1⟩
    · intro hres e he
      rcases he with he | he
      · rcases List.mem_append.mp he with he | he
        · rcases mem_sync0_cases he with he | he | he | he <;> subst he <;>
            exact ⟨rfl, rfl, rfl⟩
        · rcases gcfmp_event_cases he with he | he | he <;> subst he <;>
            exact ⟨rfl, rfl, rfl⟩
      · have h4 := afterMerge_error_event_cases f (resolvedAttrs env det)
          e hres he
        exact ⟨h4.1, h4.2.1, h4.2.2.1⟩

/-- C8: whenever `initMetrics` rejects — a fault during detection, either
attribute await, or exporter / provider construction — the module run
logs the error exactly once, performs exactly one non-zero `process.exit`,
and never creates a counter. -/
theorem c8_fatal_path (env : Env) (det : GcpDetectedResource) (f : Fault)
    (h : (initMetricsRun env det f).result = Except.error ()) :
    (moduleTrace env det f).countP isErrorLogged = 1
    ∧ (moduleTrace env det f).countP isExitNonzero = 1
    ∧ (moduleTrace env det f).countP isCounterCreated = 0 := by
  have hcase := initRun_error_event_cases env det f h
  have hA : ∀ e ∈ (initMetricsRun env det f).syncEvents ++
      [Event.handlerRegistered, Event.infoLog "HTTP handler ready."] ++
      (initMetricsRun env det f).asyncEvents,
      isErrorLogged e = false ∧ isExitNonzero e = false
        ∧ isCounterCreated e = false := by
    intro e he
    rcases List.mem_append.mp he with he | he
    · rcases List.mem_append.mp he with he | he
      · exact hcase e (Or.inl he)
      · simp only [List.mem_cons, List.not_mem_nil, or_false] at he
        rcases he with he | he <;> subst he <;> exact ⟨rfl, rfl, rfl⟩
    · exact hcase e (Or.inr he)
  have htr : moduleTrace env det f =
      ((initMetricsRun env det f).syncEvents ++
        [Event.handlerRegistered, Event.infoLog "HTTP handler ready."] ++
        (initMetricsRun env det f).asyncEvents) ++
        [Event.errorLogged, Event.exit 1] := by
    unfold moduleTrace
    rw [h]
  rw [htr]
  refine ⟨?_, ?_, ?_⟩
  · rw [List.countP_append,
      List.countP_eq_zero.mpr (fun e he => by simp [(hA e he).1])]
    rfl
  · rw [List.countP_append,
      List.countP_eq_zero.mpr (fun e he => by simp [(hA e he).2.1])]
    rfl
  · rw [List.countP_append,
      List.countP_eq_zero.mpr (fun e he => by simp [(hA e he).2.2])]
    rfl

theorem c8_fatal_path_witness :
    (initMetricsRun envPlain detEmpty Fault.atDetect).result = Except.error ()
    ∧ ((moduleTrace envPlain detEmpty Fault.atDetect).countP isErrorLogged = 1
      ∧ (moduleTrace envPlain detEmpty Fault.atDetect).countP isExitNonzero = 1
      ∧ (moduleTrace envPlain detEmpty Fault.atDetect).countP isCounterCreated
        = 0) :=
  ⟨rfl, c8_fatal_path envPlain detEmpty Fault.atDetect rfl⟩

/-- C9: with both counter handles bound, any interleaving of background
ticks and request-hook invocations succeeds, each tick adds exactly one to
the background counter, each request adds exactly one to the request
counter, and every request is answered with the fixed success body. -/
theorem c9_counter_increments (r b : Nat) (calls : List CallEvent) :
    runCalls ⟨some r, some b⟩ calls =
      Except.ok (⟨some (r + countRequests calls), some (b + countTicks calls)⟩,
        List.replicate (countRequests calls) "OK") := by
  induction calls generalizing r b with
  | nil => simp [runCalls, countTicks, countRequests]
  | cons c rest ih =>
    cases c with
    | tick =>
      have hstep : runCalls ⟨some r, some b⟩ (CallEvent.tick :: rest) =
          runCalls ⟨some r, some (b + 1)⟩ rest := rfl
      rw [hstep, ih]
      simp only [countTicks, countRequests]
      simp [Nat.add_comm, Nat.add_left_comm, Nat.add_assoc]
    | request =>
      have hstep : runCalls ⟨some r, some b⟩ (CallEvent.request :: rest) =
          match runCalls ⟨some (r + 1), some b⟩ rest with
          | Except.ok st => Except.ok (st.1, "OK" :: st.2)
          | Except.error e => Except.error e := rfl
      rw [hstep, ih]
      simp only [countTicks, countRequests]
      simp [List.replicate_succ, Nat.add_comm, Nat.add_left_comm,
        Nat.add_assoc]

theorem syncEvents_no_postbind {env : Env} {det : GcpDetectedResource}
    {f : Fault} {e : Event}
    (he : e ∈ (initMetricsRun env det f).syncEvents) :
    isPostBindEvent e = false := by
  unfold initMetricsRun at he
  split at he
  · rcases mem_sync0_cases he with he | he | he | he <;> subst he <;> rfl
  · split at he
    · split at he
      · rcases mem_sync0_cases he with he | he | he | he <;> subst he <;> rfl
      · rcases mem_sync0_cases he with he | he | he | he <;> subst he <;> rfl
    · rcases List.mem_append.mp he with he | he
      · rcases mem_sync0_cases he with he | he | he | he <;> subst he <;> rfl
      · rcases gcfmp_event_cases he with he | he | he <;> subst he <;> rfl

/-- C10: the HTTP handler registration happens during module evaluation
in every run — it is on the trace unconditionally and strictly precedes
every counter binding, the background-interval start, and any process
exit — and invoking the handler while the request-counter handle is still
unbound raises an error rather than queueing or dropping the increment. -/
theorem c10_handler_registration_and_unbound_add (env : Env)
    (det : GcpDetectedResource) (f : Fault) :
    (Event.handlerRegistered ∈ moduleTrace env det f
      ∧ seqCheck isHandlerRegistered isPostBindEvent false
          (moduleTrace env det f) = true)
    ∧ (∀ s : ModuleState, s.requestCounter = none →
      handleHttpReq s = Except.error ()) := by
  constructor
  · constructor
    · unfold moduleTrace
      refine List.mem_append_left _ (List.mem_append_left _
        (List.mem_append_right _ ?_))
      simp
    · unfold moduleTrace
      have hnoq : ∀ e ∈ (initMetricsRun env det f).syncEvents ++
          [Event.handlerRegistered, Event.infoLog "HTTP handler ready."],
          isPostBindEvent e = false := by
        intro e he
        rcases List.mem_append.mp he with he | he
        · exact syncEvents_no_postbind he
        · simp only [List.mem_cons, List.not_mem_nil, or_false] at he
          rcases he with he | he <;> subst he <;> rfl
      rw [List.append_assoc, seqCheck_append_of_no_q _ _ _ _ false hnoq]
      have hseen : (false || ((initMetricsRun env det f).syncEvents ++
          [Event.handlerRegistered, Event.infoLog "HTTP handler ready."]).any
            isHandlerRegistered) = true := by
        rw [Bool.false_or, List.any_append]
        simp [isHandlerRegistered]
      rw [hseen]
      exact seqCheck_of_seen _ _ _
  · intro s hs
    unfold handleHttpReq
    rw [hs]

theorem c10_handler_registration_and_unbound_add_witness :
    ModuleState.requestCounter ⟨none, none⟩ = none
    ∧ handleHttpReq ⟨none, none⟩ = Except.error () :=
  ⟨rfl,
   (c10_handler_registration_and_unbound_add envPlain detEmpty
     Fault.noFault).2 ⟨none, none⟩ rfl⟩

end CountersSpec
